import Mathlib

/-!
Verification development for the JobMatchBot pipeline (src/joy.py).

The source is a single Python file.  The shallow embedding below translates
its pure data manipulation into Lean functions:

* Python `str` operations used by the code (`strip`, `replace`, `split`,
  `startswith`, `in`, `int(...)`) are re-implemented over `List Char`
  (Lean `String` wraps `List Char`, so everything stays executable and
  kernel-reducible).
* The in-memory user table `self.users` (a JSON-backed dict keyed by the
  stringified chat id) is modelled as an association list
  `List (String × UserProfile)`.
* External collaborators (Telegram transport, the two job-source HTTP
  responses, the Groq scoring oracle, the per-message handler of the update
  loop) enter the model as explicit inputs: an `Except` value stands for a
  call that either raised or returned.
* `datetime.now().isoformat()` is an opaque `now : String` argument.

Stateful methods become functions from their inputs to the updated state
plus the list of messages sent via `send_message`.
-/

set_option maxRecDepth 4000

/-! ## Python string primitives -/

/-- Python `str.strip()` on a character list: drop whitespace from both ends. -/
def stripChars (l : List Char) : List Char :=
  ((l.dropWhile Char.isWhitespace).reverse.dropWhile Char.isWhitespace).reverse

/-- Python `str.strip()`. -/
def pyStrip (s : String) : String :=
  String.mk (stripChars s.toList)

/-- Python `str.replace(old, new)` on character lists: replace every
(left-to-right, non-overlapping) occurrence of `pat` by `rep`.  Structural
recursion on a fuel argument so the function reduces inside the kernel;
each step consumes at least one character and one unit of fuel, so calling
it with the list's length as fuel processes the whole list. -/
def replaceFuel (pat rep : List Char) : Nat → List Char → List Char
  | 0, l => l
  | _ + 1, [] => []
  | fuel + 1, c :: cs =>
    if pat ≠ [] ∧ List.isPrefixOf pat (c :: cs) then
      rep ++ replaceFuel pat rep fuel (cs.drop (pat.length - 1))
    else
      c :: replaceFuel pat rep fuel cs

/-- Python `s.replace(old, new)`. -/
def pyReplace (s old new : String) : String :=
  String.mk (replaceFuel old.toList new.toList s.toList.length s.toList)

/-- Python `s.split(sep)` for a one-character separator (the code only ever
splits on `"|"` and `","`): keeps empty pieces, always returns at least one
piece. -/
def splitOnChar (sep : Char) : List Char → List (List Char)
  | [] => [[]]
  | c :: cs =>
    let r := splitOnChar sep cs
    if c = sep then [] :: r
    else
      match r with
      | h :: t => (c :: h) :: t
      | [] => [[c]]

/-- Python `s.split(sep)` producing strings. -/
def pySplit (s : String) (sep : Char) : List String :=
  (splitOnChar sep s.toList).map String.mk

/-- Python `s.startswith(pre)`. -/
def pyStartswith (s pre : String) : Bool :=
  List.isPrefixOf pre.toList s.toList

/-- Python `c in s` for a single character. -/
def containsChar (s : String) (c : Char) : Bool :=
  s.toList.contains c

/-- Digits-only parse helper for `pyInt`: a non-empty all-digit run. -/
def parseDigits (cs : List Char) : Option Nat :=
  match cs with
  | [] => none
  | _ =>
    if cs.all Char.isDigit then
      some (cs.foldl (fun acc c => acc * 10 + (c.toNat - 48)) 0)
    else
      none

/-- Python `int(s)` restricted to the shapes that occur here: surrounding
whitespace, an optional sign, then decimal ASCII digits; everything else
raises `ValueError`, modelled as `none`.  (Python additionally accepts
numeric underscores and non-ASCII digits; no claim depends on those.) -/
def pyInt (s : String) : Option Int :=
  match stripChars s.toList with
  | [] => none
  | c :: rest =>
    if c = '-' then (parseDigits rest).map (fun n => -(n : Int))
    else if c = '+' then (parseDigits rest).map (fun n => (n : Int))
    else (parseDigits (c :: rest)).map (fun n => (n : Int))

/-- Python `', '.join(l)`. -/
def joinCommaSpace (l : List String) : String :=
  match l with
  | [] => ""
  | h :: t => t.foldl (fun acc x => acc ++ ", " ++ x) h

/-! ## Data model (src/joy.py lines 61-79: the per-user record) -/

/-- One user record of `self.users`, exactly the dict created in
`register_user` (joy.py lines 66-76). -/
structure UserProfile where
  resume : String
  search_keywords : List String
  search_location : String
  min_match_score : Int
  jobs_sent : List String
  notification_time : String
  is_active : Bool
  last_activity : String
  welcomed : Bool
deriving DecidableEq, Repr

/-- The defaults assigned on first registration (joy.py lines 66-76). -/
def defaultProfile (now : String) : UserProfile :=
  { resume := ""
    search_keywords := ["AI Engineer"]
    search_location := "India"
    min_match_score := 70
    jobs_sent := []
    notification_time := "09:00"
    is_active := true
    last_activity := now
    welcomed := true }

/-- The user table `self.users`: dict keyed by `str(chat_id)`, modelled as an
association list (keys are unique in the dict; the model updates every entry
with the key and looks up the first one, which agrees on unique keys). -/
abbrev Users := List (String × UserProfile)

/-- Python `chat_id_str in self.users`. -/
def hasUser (users : Users) (chat_id : String) : Bool :=
  users.any (fun p => p.1 = chat_id)

/-- Read one profile. -/
def lookupUser (users : Users) (chat_id : String) : Option UserProfile :=
  (users.find? (fun p => p.1 = chat_id)).map (fun p => p.2)

/-- Point update of one profile, `self.users[chat_id_str][...] = ...`. -/
def updateUser (users : Users) (chat_id : String) (f : UserProfile → UserProfile) : Users :=
  users.map (fun p => if p.1 = chat_id then (p.1, f p.2) else p)

/-! ## UserStore operations (joy.py lines 61-106) -/

/-- `register_user` (joy.py lines 61-79): insert the default profile if the
id is unknown and return `True`; otherwise return `False` and touch nothing. -/
def register_user (users : Users) (chat_id now : String) : Bool × Users :=
  if hasUser users chat_id then (false, users)
  else (true, users ++ [(chat_id, defaultProfile now)])

/-- `set_resume` (joy.py lines 81-89): store the resume text and refresh
`last_activity` for a known id, else return `False` unchanged. -/
def set_resume (users : Users) (chat_id resume_text now : String) : Bool × Users :=
  if hasUser users chat_id then
    (true, updateUser users chat_id (fun u => { u with resume := resume_text, last_activity := now }))
  else (false, users)

/-- The field-by-field update performed inside `set_search_preferences`
(joy.py lines 95-103): each `None` argument leaves its field alone,
`last_activity` is always refreshed. -/
def applyPrefs (keywords : Option (List String)) (location : Option String)
    (min_score : Option Int) (notification_time : Option String) (now : String)
    (u : UserProfile) : UserProfile :=
  let u1 := match keywords with
    | some ks => { u with search_keywords := ks }
    | none => u
  let u2 := match location with
    | some loc => { u1 with search_location := loc }
    | none => u1
  let u3 := match min_score with
    | some s => { u2 with min_match_score := s }
    | none => u2
  let u4 := match notification_time with
    | some t => { u3 with notification_time := t }
    | none => u3
  { u4 with last_activity := now }

/-- `set_search_preferences` (joy.py lines 91-106): update a known user's
preference fields, else return `False` unchanged. -/
def set_search_preferences (users : Users) (chat_id : String)
    (keywords : Option (List String)) (location : Option String)
    (min_score : Option Int) (notification_time : Option String)
    (now : String) : Bool × Users :=
  if hasUser users chat_id then
    (true, updateUser users chat_id (applyPrefs keywords location min_score notification_time now))
  else (false, users)

/-! ## Postings and match results -/

/-- One normalized posting dict as built in `scrape_jobs`
(joy.py lines 315-322 and 340-347). -/
structure Job where
  source : String
  title : String
  company : String
  location : String
  link : String
  id : String
deriving DecidableEq, Repr

/-- The `{"score": ..., "analysis": ...}` dict of the scoring path. -/
structure MatchResult where
  score : Int
  analysis : String
deriving DecidableEq, Repr

/-- The prompt text assembled by `get_match_score` (joy.py lines 181-203):
resume truncated to its first 2000 characters plus the job fields.  The
literal framing text is abbreviated; only the data dependency matters. -/
def matchPrompt (job_data : Job) (resume_text : String) : String :=
  "Resume: " ++ String.mk (resume_text.toList.take 2000) ++
  " Title: " ++ job_data.title ++
  " Company: " ++ job_data.company ++
  " Location: " ++ job_data.location

/-- `get_match_score` (joy.py lines 179-203) exactly as written: the method
body assembles `prompt` and then ends.  There is no `return` statement, so
the call evaluates to `None` — the oracle call and the score-parsing block
that the docstring promises sit instead at the end of
`send_resume_analysis` (lines 275-294), where they reference the undefined
name `prompt`.  `none` is Python's `None`. -/
def get_match_score (job_data : Job) (resume_text : String) : Option MatchResult :=
  let _ := matchPrompt job_data resume_text
  none

/-! ## SourceAggregator (joy.py lines 296-353) -/

/-- CPython salts the built-in `hash` of a `str` with a per-process secret
(hash randomization, on by default since Python 3.3: `PYTHONHASHSEED`).
The model keeps the one property the identity claims depend on: the value
is a function of the per-process seed as well as of the string.  The exact
mixing (SipHash in CPython) is irrelevant to the claims. -/
def pyHash (seed : Nat) (s : String) : Int :=
  s.toList.foldl (fun a c => a * 31 + Int.ofNat c.toNat) (Int.ofNat seed)

/-- LinkedIn posting identity, `f"li_{hash(href)}"` (joy.py line 321). -/
def linkedinJobId (seed : Nat) (href : String) : String :=
  "li_" ++ toString (pyHash seed href)

/-- Indeed posting identity, `f"indeed_{hash(href)}"` of the raw relative
href (joy.py line 339). -/
def indeedJobId (seed : Nat) (href : String) : String :=
  "indeed_" ++ toString (pyHash seed href)

/-- The text fields pulled out of one result card before normalization. -/
structure RawCard where
  title : String
  company : String
  location : String
  link : String
deriving DecidableEq, Repr

/-- One source's contribution as seen by `scrape_jobs`: `Except.error` for
any failure of the whole block (transport error, non-200 response treated
as yielding nothing, or the `keywords[0]` IndexError on an empty keyword
list — all caught by the outer `try` at lines 305/329 or skipped by the
status check); `Except.ok` carries the selected cards, each of which may
itself fail to parse (the inner per-record `try` at lines 314/338). -/
abbrev SourceResp := Except Unit (List (Except Unit RawCard))

/-- The LinkedIn block of `scrape_jobs` (joy.py lines 304-326): take the
first 10 cards, keep those that parse, strip the text fields, qualify the
identity with the `li_` prefix. -/
def linkedinPostings (seed : Nat) (resp : SourceResp) : List Job :=
  match resp with
  | Except.error _ => []
  | Except.ok cards =>
    (cards.take 10).filterMap (fun rc =>
      match rc with
      | Except.error _ => none
      | Except.ok c =>
        some { source := "LinkedIn", title := pyStrip c.title,
               company := pyStrip c.company, location := pyStrip c.location,
               link := c.link, id := linkedinJobId seed c.link })

/-- The Indeed block of `scrape_jobs` (joy.py lines 328-351): as above, but
the stored link is the raw href prefixed with the site origin (line 345)
while the identity hashes the raw href (line 339). -/
def indeedPostings (seed : Nat) (resp : SourceResp) : List Job :=
  match resp with
  | Except.error _ => []
  | Except.ok cards =>
    (cards.take 10).filterMap (fun rc =>
      match rc with
      | Except.error _ => none
      | Except.ok c =>
        some { source := "Indeed", title := pyStrip c.title,
               company := pyStrip c.company, location := pyStrip c.location,
               link := "https://in.indeed.com" ++ c.link, id := indeedJobId seed c.link })

/-- `scrape_jobs` (joy.py lines 296-353): both source blocks run in
declared order, each guarded by its own `try`, appending to one list; the
function is total — a failing source contributes nothing and the other
source's postings are still returned. -/
def scrape_jobs (seed : Nat) (linkedin_resp indeed_resp : SourceResp) : List Job :=
  linkedinPostings seed linkedin_resp ++ indeedPostings seed indeed_resp

/-! ## Message texts sent via `send_message` -/

/-- `ask_for_resume` text (joy.py line 164). -/
def askResumeMsg : String :=
  "🚀 Please send your resume (as a PDF) so I can match jobs for you!"

/-- `ask_for_preferences` text (joy.py lines 149-159). -/
def askPreferencesMsg : String :=
  "🔍 Let\x27s customize your job search!\n\nPlease send your preferences in this format:\n/preferences [job titles] | [location] | [minimum match %] | [notification time]\n\nExample: /preferences Data Scientist, ML Engineer | New York | 75 | 08:00\n\nOr you can set them individually:\n/keywords Data Scientist, ML Engineer\n/location New York\n/score 75\n/time 08:00"

/-- Welcome text of the `/start` branch (joy.py lines 443-450). -/
def welcomeMsg : String :=
  "👋 Welcome to JobMatchBot!\n\nI\x27ll help you find jobs that match your profile. To get started:\n1️⃣ Send me your resume as a PDF file\n2️⃣ I\x27ll ask you for job search preferences\n3️⃣ I\x27ll send you daily job matches with AI-powered match scores\n\nType /help anytime to see available commands."

/-- `/help` text (joy.py lines 455-468). -/
def helpMsg : String :=
  "🤖 *JobMatchBot Commands* 🤖\n\n/start - Start or restart the bot\n/preferences - Set all preferences at once\n/keywords [job titles] - Set job search keywords\n/location [place] - Set job search location\n/score [number] - Set minimum match score\n/time [HH:MM] - Set daily notification time\n/jobs - Get jobs immediately\n/analyze - Get resume analysis and improvement suggestions\n/pause - Pause daily notifications\n/resume - Resume daily notifications\n/status - Check your current settings"

/-- Sent when the scrape is empty or every posting was already delivered
(joy.py lines 372 and 379). -/
def noNewJobsMsg : String :=
  "🔍 No new job matches found today. I\x27ll keep searching!"

/-- Summary when new postings existed but none met the threshold
(joy.py line 416). -/
def noneMetMsg (numNew : Nat) (minScore : Int) : String :=
  "🔍 I found " ++ toString numNew ++ " new jobs, but none met your minimum match score of " ++ toString minScore ++ "%. I\x27ll keep searching!"

/-- Summary when at least one match was delivered (joy.py line 418). -/
def summaryMsg (matches_found : Nat) : String :=
  "✅ Sent you " ++ toString matches_found ++ " job matches today! I\x27ll send more when I find them."

/-- `/preferences` success reply (joy.py line 482). -/
def prefsUpdatedMsg : String :=
  "✅ Your job search preferences have been updated!"

/-- `/preferences` failure reply (joy.py line 487). -/
def prefsInvalidMsg : String :=
  "❌ Invalid format. Please use: /preferences [keywords] | [location] | [score] | [time]"

/-- `/keywords` success reply (joy.py line 494). -/
def keywordsUpdatedMsg (ks : List String) : String :=
  "✅ Job search keywords updated to: " ++ joinCommaSpace ks

/-- `/keywords` empty-argument reply (joy.py line 496). -/
def provideKeywordMsg : String :=
  "❌ Please provide at least one keyword."

/-- `/location` success reply (joy.py line 505). -/
def locationUpdatedMsg (loc : String) : String :=
  "✅ Job search location updated to: " ++ loc

/-- `/location` empty-argument reply (joy.py line 507). -/
def provideLocationMsg : String :=
  "❌ Please provide a location."

/-- `/score` success reply (joy.py line 514). -/
def scoreUpdatedMsg (s : Int) : String :=
  "✅ Minimum match score updated to: " ++ toString s ++ "%"

/-- `/score` out-of-range reply (joy.py line 516). -/
def scoreRangeMsg : String :=
  "❌ Score must be between 0 and 100."

/-- `/score` unparseable reply (joy.py line 518). -/
def scoreNumberMsg : String :=
  "❌ Please enter a valid number."

/-- `/time` success reply (joy.py line 524). -/
def timeUpdatedMsg (t : String) : String :=
  "✅ Daily notification time updated to: " ++ t

/-- `/time` rejection reply (joy.py line 526). -/
def timeFormatErrorMsg : String :=
  "❌ Please enter time in HH:MM format."

/-- `/jobs` acknowledgement (joy.py line 529). -/
def searchingJobsMsg : String :=
  "🔍 Searching for jobs matching your profile... This may take a minute."

/-- `/analyze` acknowledgement (joy.py line 533). -/
def analyzingMsg : String :=
  "📋 Analyzing your resume... This may take a minute."

/-- `/pause` reply (joy.py line 541). -/
def pausedMsg : String :=
  "⏸️ Job notifications paused. Type /resume to restart."

/-- `/resume` reply (joy.py line 548). -/
def resumedMsg : String :=
  "▶️ Job notifications resumed!"

/-! ## Per-user delivery run (joy.py lines 355-421) -/

/-- The delivered-id bookkeeping of one loop iteration (joy.py lines
386-388): `user_data["jobs_sent"].append(job["id"])`, then if the list
exceeds 100 entries keep `jobs_sent[-100:]`, the most recent 100. -/
def recordDelivered (sent : List String) (id : String) : List String :=
  if (sent ++ [id]).length > 100 then (sent ++ [id]).drop ((sent ++ [id]).length - 100)
  else sent ++ [id]

/-- Accumulated outcome of the `for job in new_jobs` loop. -/
structure LoopResult where
  jobs_sent : List String
  found : Nat
  scored : List String
  notified : List String
  crashed : Bool
deriving DecidableEq, Repr

/-- The `for job in new_jobs` loop (joy.py lines 384-413), parameterized by
the scoring function the loop calls at line 391 (in the source that is
`self.get_match_score`).  Each iteration first records the posting identity
(lines 386-388), then scores.  A `none` from the scorer models the call
evaluating to Python `None`: line 392 then raises `TypeError` on
`match_result["score"]` and the loop — and with it the rest of
`send_jobs_to_user` — is abandoned (`crashed`); postings after that point
are neither scored nor recorded.  `scored` lists the identities handed to
the scorer, `notified` those for which a match message was sent
(score ≥ threshold, lines 396-410). -/
def jobLoop (scorer : Job → String → Option MatchResult) (resume : String) (minScore : Int) :
    List Job → List String → Nat → List String → List String → LoopResult
  | [], sent, found, scored, notified =>
    { jobs_sent := sent, found := found, scored := scored, notified := notified, crashed := false }
  | j :: rest, sent, found, scored, notified =>
    let sent2 := recordDelivered sent j.id
    match scorer j resume with
    | none =>
      { jobs_sent := sent2, found := found, scored := scored ++ [j.id],
        notified := notified, crashed := true }
    | some r =>
      if r.score ≥ minScore then
        jobLoop scorer resume minScore rest sent2 (found + 1) (scored ++ [j.id]) (notified ++ [j.id])
      else
        jobLoop scorer resume minScore rest sent2 found (scored ++ [j.id]) notified

/-- Observable outcome of one `send_jobs_to_user` run: the user's delivered
set afterwards, which identities were scored, which got a match
notification, the non-match messages sent, and whether the run died in an
exception. -/
structure RunOutcome where
  jobs_sent : List String
  scored : List String
  notified : List String
  messages : List String
  crashed : Bool
deriving DecidableEq, Repr

/-- `send_jobs_to_user` (joy.py lines 355-421) for a registered user,
parameterized by the fetched postings (the `scrape_jobs` result, line 369)
and by the scoring function (line 391).  Inactive user: silent return
(line 359).  Empty resume: resume prompt (lines 364-366).  Empty scrape or
nothing left after dedup: the no-new-jobs message (lines 371-380).
Otherwise the loop runs and, if it completes, one summary is sent
(lines 415-418). -/
def send_jobs_to_user (scorer : Job → String → Option MatchResult)
    (user : UserProfile) (jobs : List Job) : RunOutcome :=
  if !user.is_active then
    { jobs_sent := user.jobs_sent, scored := [], notified := [], messages := [], crashed := false }
  else if user.resume = "" then
    { jobs_sent := user.jobs_sent, scored := [], notified := [], messages := [askResumeMsg], crashed := false }
  else if jobs = [] then
    { jobs_sent := user.jobs_sent, scored := [], notified := [], messages := [noNewJobsMsg], crashed := false }
  else
    let new_jobs := jobs.filter (fun j => !(user.jobs_sent.contains j.id))
    if new_jobs = [] then
      { jobs_sent := user.jobs_sent, scored := [], notified := [], messages := [noNewJobsMsg], crashed := false }
    else
      let r := jobLoop scorer user.resume user.min_match_score new_jobs user.jobs_sent 0 [] []
      if r.crashed then
        { jobs_sent := r.jobs_sent, scored := r.scored, notified := r.notified,
          messages := [], crashed := true }
      else if r.found = 0 then
        { jobs_sent := r.jobs_sent, scored := r.scored, notified := r.notified,
          messages := [noneMetMsg new_jobs.length user.min_match_score], crashed := false }
      else
        { jobs_sent := r.jobs_sent, scored := r.scored, notified := r.notified,
          messages := [summaryMsg r.found], crashed := false }

/-! ## ConversationRouter: `parse_command` (joy.py lines 436-553) -/

/-- The `/preferences` branch (joy.py lines 471-487): split the argument on
`|`; with fewer than 4 pieces re-send the preferences prompt; otherwise
parse piece 2 as the score — the only validation is `int(...)`, there is no
range check — and store all four fields; an unparseable score raises inside
the `try` and only the corrective message is sent. -/
def handle_preferences (users : Users) (chat_id t now : String) : Users × List String :=
  let parts := pySplit (pyStrip (pyReplace t "/preferences" "")) '|'
  match parts with
  | p0 :: p1 :: p2 :: p3 :: _ =>
    let keywords := (pySplit p0 ',').map pyStrip
    let location := pyStrip p1
    match pyInt (pyStrip p2) with
    | some min_score =>
      let notif_time := pyStrip p3
      ((set_search_preferences users chat_id (some keywords) (some location)
          (some min_score) (some notif_time) now).2, [prefsUpdatedMsg])
    | none => (users, [prefsInvalidMsg])
  | _ => (users, [askPreferencesMsg])

/-- The `/keywords` branch (joy.py lines 489-499). -/
def handle_keywords (users : Users) (chat_id t now : String) : Users × List String :=
  let ks := (pySplit (pyStrip (pyReplace t "/keywords" "")) ',').map pyStrip
  match ks with
  | k0 :: _ =>
    if k0 ≠ "" then
      ((set_search_preferences users chat_id (some ks) none none none now).2,
       [keywordsUpdatedMsg ks])
    else (users, [provideKeywordMsg])
  | [] => (users, [provideKeywordMsg])

/-- The `/location` branch (joy.py lines 501-507). -/
def handle_location (users : Users) (chat_id t now : String) : Users × List String :=
  let loc := pyStrip (pyReplace t "/location" "")
  if loc ≠ "" then
    ((set_search_preferences users chat_id none (some loc) none none now).2,
     [locationUpdatedMsg loc])
  else (users, [provideLocationMsg])

/-- The `/score` branch (joy.py lines 509-518): parse, and store only when
`0 <= score <= 100`; otherwise reply without touching state. -/
def handle_score (users : Users) (chat_id t now : String) : Users × List String :=
  match pyInt (pyStrip (pyReplace t "/score" "")) with
  | some score =>
    if 0 ≤ score ∧ score ≤ 100 then
      ((set_search_preferences users chat_id none none (some score) none now).2,
       [scoreUpdatedMsg score])
    else (users, [scoreRangeMsg])
  | none => (users, [scoreNumberMsg])

/-- The `/time` branch (joy.py lines 520-526): accept when the stripped
argument is non-empty, has exactly 5 characters, and contains a colon
anywhere (`":" in time_str`); the colon position is not checked.  On
rejection state is untouched and the format message is sent. -/
def handle_time (users : Users) (chat_id t now : String) : Users × List String :=
  let time_str := pyStrip (pyReplace t "/time" "")
  if time_str ≠ "" ∧ time_str.length = 5 ∧ containsChar time_str ':' then
    ((set_search_preferences users chat_id none none none (some time_str) now).2,
     [timeUpdatedMsg time_str])
  else (users, [timeFormatErrorMsg])

/-- `parse_command` on the already-stripped text (joy.py lines 436-553):
the `if/elif` chain dispatches on `startswith`.  `/jobs` and `/analyze`
only acknowledge here — the actual run happens on a spawned thread.
`/extract` (lines 550-553) evaluates `self.send_message` without calling
it, so it sends nothing and changes nothing.  An unrecognized text falls
off the chain with no reply. -/
def parse_command_t (users : Users) (chat_id t now : String) (skip_welcome : Bool) :
    Users × List String :=
  if pyStartswith t "/start" then
    let res := register_user users chat_id now
    if (!skip_welcome) && (res.1 || t = "/start") then (res.2, [welcomeMsg, askResumeMsg])
    else (res.2, [])
  else if pyStartswith t "/help" then (users, [helpMsg])
  else if pyStartswith t "/preferences" then handle_preferences users chat_id t now
  else if pyStartswith t "/keywords" then handle_keywords users chat_id t now
  else if pyStartswith t "/location" then handle_location users chat_id t now
  else if pyStartswith t "/score" then handle_score users chat_id t now
  else if pyStartswith t "/time" then handle_time users chat_id t now
  else if pyStartswith t "/jobs" then (users, [searchingJobsMsg])
  else if pyStartswith t "/analyze" then (users, [analyzingMsg])
  else if pyStartswith t "/pause" then
    if hasUser users chat_id then
      (updateUser users chat_id (fun u => { u with is_active := false }), [pausedMsg])
    else (users, [])
  else if pyStartswith t "/resume" then
    if hasUser users chat_id then
      (updateUser users chat_id (fun u => { u with is_active := true }), [resumedMsg])
    else (users, [])
  else if pyStartswith t "/extract" then (users, [])
  else (users, [])

/-- `parse_command` (joy.py line 438 first strips the incoming text). -/
def parse_command (users : Users) (chat_id text now : String) (skip_welcome : Bool) :
    Users × List String :=
  parse_command_t users chat_id (pyStrip text) now skip_welcome

/-! ## ProcessSupervisor: `process_telegram_updates` (joy.py lines 555-597) -/

/-- One element of the `getUpdates` result batch. -/
structure TgUpdate where
  update_id : Int
deriving DecidableEq, Repr

/-- Observable actions of one poll iteration, in the order the code
performs them. -/
inductive PollEvent where
  | advanceOffset (n : Int)
  | handleUpdate (u : Int)
deriving DecidableEq, Repr

/-- `max(update["update_id"] for update in updates_to_process)`
(joy.py line 571) over a non-empty batch. -/
def maxUpdateId (u : TgUpdate) (us : List TgUpdate) : Int :=
  us.foldl (fun a v => max a v.update_id) u.update_id

/-- The `for update in updates_to_process` loop (joy.py lines 573-593),
with the per-update body (register, document/text dispatch) abstracted as
`handler`.  An exception from the body propagates out of the loop to the
outer `except` (line 595): the remaining updates are not attempted.
Returns the attempts made and whether the whole batch was attempted. -/
def processBatch (handler : TgUpdate → Except Unit Unit) :
    List TgUpdate → List PollEvent × Bool
  | [] => ([], true)
  | u :: rest =>
    match handler u with
    | Except.ok _ =>
      let r := processBatch handler rest
      (PollEvent.handleUpdate u.update_id :: r.1, r.2)
    | Except.error _ => ([PollEvent.handleUpdate u.update_id], false)

/-- `process_telegram_updates` (joy.py lines 555-597).  `resp` is the
outcome of the `requests.get`/`.json()` transport step: `Except.error`
when it raises (the outer `except` then leaves `last_update_id` alone, so
the batch is re-fetched next poll).  On a successful non-empty batch the
code assigns `self.last_update_id = max(...)` BEFORE the processing loop
(line 571) — the returned event trace records that order. -/
def process_telegram_updates (handler : TgUpdate → Except Unit Unit)
    (last_update_id : Option Int) (resp : Except Unit (List TgUpdate)) :
    Option Int × List PollEvent :=
  match resp with
  | Except.error _ => (last_update_id, [])
  | Except.ok [] => (last_update_id, [])
  | Except.ok (u :: us) =>
    (some (maxUpdateId u us),
     PollEvent.advanceOffset (maxUpdateId u us) :: (processBatch handler (u :: us)).1)

/-! ## Concrete fixtures used by the evaluation theorems -/

/-- A registered user table with one default profile. -/
def demoUsers : Users := [("1", defaultProfile "t0")]

/-- A registered, active user who has uploaded a resume. -/
def demoUser : UserProfile := { defaultProfile "t0" with resume := "resume text" }

/-- Two distinct fresh postings. -/
def demoJob1 : Job :=
  { source := "LinkedIn", title := "ML Engineer", company := "Acme",
    location := "Remote", link := "lnk1", id := "li_1" }

/-- Second fresh posting. -/
def demoJob2 : Job :=
  { source := "LinkedIn", title := "Data Scientist", company := "Beta",
    location := "Remote", link := "lnk2", id := "li_2" }

/-- The same user after both demo postings were already delivered. -/
def demoUserSent : UserProfile := { demoUser with jobs_sent := ["li_1", "li_2"] }

/-- An update-loop body that always succeeds. -/
def okHandler : TgUpdate → Except Unit Unit := fun _ => Except.ok ()

/-- An update-loop body that raises on every message. -/
def failHandler : TgUpdate → Except Unit Unit := fun _ => Except.error ()

/-- Bounds check `0 <= s <= 100` as a Boolean. -/
def scoreInRange (s : Int) : Bool :=
  decide (0 ≤ s) && decide (s ≤ 100)

/-- The §8 invariant: every stored `min_match_score` lies in `[0, 100]`. -/
def minScoreInv (users : Users) : Bool :=
  users.all (fun p => scoreInRange p.2.min_match_score)

/-! ## Helper lemmas -/

/-- One delivered-id bookkeeping step never leaves more than 100 entries. -/
theorem recordDelivered_length_le (sent : List String) (id : String) :
    (recordDelivered sent id).length ≤ 100 := by
  unfold recordDelivered
  split
  · rename_i h
    rw [List.length_drop]
    omega
  · rename_i h
    omega

/-- The bookkeeping step always keeps exactly the most recent (at most) 100
entries of the appended list. -/
theorem recordDelivered_eq_drop (sent : List String) (id : String) :
    recordDelivered sent id = (sent ++ [id]).drop ((sent ++ [id]).length - 100) := by
  unfold recordDelivered
  split
  · rfl
  · rename_i h
    have h0 : (sent ++ [id]).length - 100 = 0 := by omega
    rw [h0, List.drop_zero]

/-- The delivery loop preserves the 100-entry bound on the delivered set. -/
theorem jobLoop_sent_le (scorer : Job → String → Option MatchResult)
    (resume : String) (minScore : Int) (l : List Job) :
    ∀ (sent : List String) (found : Nat) (scored notified : List String),
      sent.length ≤ 100 →
      (jobLoop scorer resume minScore l sent found scored notified).jobs_sent.length ≤ 100 := by
  induction l with
  | nil => intro sent found scored notified h; exact h
  | cons j rest ih =>
    intro sent found scored notified h
    simp only [jobLoop]
    rcases hs : scorer j resume with _ | r
    · simp only [hs]
      exact recordDelivered_length_le sent j.id
    · simp only [hs]
      split
      · exact ih _ _ _ _ (recordDelivered_length_le sent j.id)
      · exact ih _ _ _ _ (recordDelivered_length_le sent j.id)

/-- Every identity the loop hands to the scorer is either carried in from
the accumulator or belongs to the postings being processed. -/
theorem jobLoop_scored_mem (scorer : Job → String → Option MatchResult)
    (resume : String) (minScore : Int) (l : List Job) :
    ∀ (sent : List String) (found : Nat) (scored notified : List String) (x : String),
      x ∈ (jobLoop scorer resume minScore l sent found scored notified).scored →
      x ∈ scored ∨ x ∈ l.map Job.id := by
  induction l with
  | nil => intro sent found scored notified x hx; exact Or.inl hx
  | cons j rest ih =>
    intro sent found scored notified x hx
    simp only [jobLoop] at hx
    rcases hs : scorer j resume with _ | r
    · simp only [hs] at hx
      simp only [List.mem_append, List.mem_singleton] at hx
      rcases hx with hx | hx
      · exact Or.inl hx
      · right; simp [hx]
    · simp only [hs] at hx
      split at hx <;>
      · rcases ih _ _ _ _ x hx with h | h
        · simp only [List.mem_append, List.mem_singleton] at h
          rcases h with h | h
          · exact Or.inl h
          · right; simp [h]
        · right; simp only [List.map_cons, List.mem_cons]; exact Or.inr h

/-- Every identity for which the loop sends a match notification is either
carried in from the accumulator or belongs to the postings being
processed. -/
theorem jobLoop_notified_mem (scorer : Job → String → Option MatchResult)
    (resume : String) (minScore : Int) (l : List Job) :
    ∀ (sent : List String) (found : Nat) (scored notified : List String) (x : String),
      x ∈ (jobLoop scorer resume minScore l sent found scored notified).notified →
      x ∈ notified ∨ x ∈ l.map Job.id := by
  induction l with
  | nil => intro sent found scored notified x hx; exact Or.inl hx
  | cons j rest ih =>
    intro sent found scored notified x hx
    simp only [jobLoop] at hx
    rcases hs : scorer j resume with _ | r
    · simp only [hs] at hx
      exact Or.inl hx
    · simp only [hs] at hx
      split at hx
      · rcases ih _ _ _ _ x hx with h | h
        · simp only [List.mem_append, List.mem_singleton] at h
          rcases h with h | h
          · exact Or.inl h
          · right; simp [h]
        · right; simp only [List.map_cons, List.mem_cons]; exact Or.inr h
      · rcases ih _ _ _ _ x hx with h | h
        · exact Or.inl h
        · right; simp only [List.map_cons, List.mem_cons]; exact Or.inr h

/-- The LinkedIn block contributes at most 10 postings. -/
theorem linkedinPostings_length_le (seed : Nat) (resp : SourceResp) :
    (linkedinPostings seed resp).length ≤ 10 := by
  unfold linkedinPostings
  cases resp with
  | error e => simp
  | ok cards =>
    exact le_trans (List.length_filterMap_le _ _) (List.length_take_le _ _)

/-- Each source block contributes at most 10 postings. -/
theorem indeedPostings_length_le (seed : Nat) (resp : SourceResp) :
    (indeedPostings seed resp).length ≤ 10 := by
  unfold indeedPostings
  cases resp with
  | error e => simp
  | ok cards =>
    exact le_trans (List.length_filterMap_le _ _) (List.length_take_le _ _)

/-- A point update keeps the score invariant whenever the update function
does. -/
theorem minScoreInv_updateUser (users : Users) (chat_id : String) (f : UserProfile → UserProfile)
    (hf : ∀ u, scoreInRange u.min_match_score = true → scoreInRange (f u).min_match_score = true)
    (h : minScoreInv users = true) : minScoreInv (updateUser users chat_id f) = true := by
  unfold minScoreInv updateUser at *
  rw [List.all_eq_true] at h ⊢
  intro p hp
  rw [List.mem_map] at hp
  obtain ⟨q, hq, hpq⟩ := hp
  subst hpq
  by_cases hid : q.1 = chat_id
  · rw [if_pos hid]
    exact hf q.2 (h q hq)
  · rw [if_neg hid]
    exact h q hq

/-- Registration only ever inserts the default profile (score 70), so it
keeps the score invariant. -/
theorem minScoreInv_register (users : Users) (chat_id now : String)
    (h : minScoreInv users = true) : minScoreInv (register_user users chat_id now).2 = true := by
  unfold register_user
  split
  · exact h
  · unfold minScoreInv at *
    rw [List.all_append, h]
    rfl

/-- The resulting minimum score of the preference update: the requested
value when one is supplied, otherwise the old one. -/
theorem applyPrefs_min (keywords : Option (List String)) (location : Option String)
    (min_score : Option Int) (notification_time : Option String) (now : String) (u : UserProfile) :
    (applyPrefs keywords location min_score notification_time now u).min_match_score
      = match min_score with
        | some s => s
        | none => u.min_match_score := by
  cases keywords <;> cases location <;> cases min_score <;> cases notification_time <;> rfl

/-- `set_search_preferences` keeps the score invariant whenever the
supplied score (if any) is in range. -/
theorem minScoreInv_set_prefs (users : Users) (chat_id : String)
    (keywords : Option (List String)) (location : Option String)
    (min_score : Option Int) (notification_time : Option String) (now : String)
    (hms : ∀ s, min_score = some s → scoreInRange s = true)
    (h : minScoreInv users = true) :
    minScoreInv (set_search_preferences users chat_id keywords location
      min_score notification_time now).2 = true := by
  unfold set_search_preferences
  split
  · refine minScoreInv_updateUser _ _ _ ?_ h
    intro u hu
    rw [applyPrefs_min]
    cases hcase : min_score with
    | none => exact hu
    | some s => exact hms s hcase
  · exact h

/-- The `/keywords` branch never touches the minimum score. -/
theorem minScoreInv_handle_keywords (users : Users) (chat_id t now : String)
    (h : minScoreInv users = true) :
    minScoreInv (handle_keywords users chat_id t now).1 = true := by
  simp only [handle_keywords]
  split
  · split
    · exact minScoreInv_set_prefs _ _ _ _ _ _ _ (fun s hs => Option.noConfusion hs) h
    · exact h
  · exact h

/-- The `/location` branch never touches the minimum score. -/
theorem minScoreInv_handle_location (users : Users) (chat_id t now : String)
    (h : minScoreInv users = true) :
    minScoreInv (handle_location users chat_id t now).1 = true := by
  simp only [handle_location]
  split
  · exact minScoreInv_set_prefs _ _ _ _ _ _ _ (fun s hs => Option.noConfusion hs) h
  · exact h

/-- The `/score` branch stores a score only after checking
`0 <= score <= 100`, so it keeps the invariant whether it accepts or
rejects. -/
theorem minScoreInv_handle_score (users : Users) (chat_id t now : String)
    (h : minScoreInv users = true) :
    minScoreInv (handle_score users chat_id t now).1 = true := by
  simp only [handle_score]
  rcases hp : pyInt (pyStrip (pyReplace t "/score" "")) with _ | score
  · simp only [hp]
    exact h
  · simp only [hp]
    split
    · rename_i hr
      refine minScoreInv_set_prefs _ _ _ _ _ _ _ ?_ h
      intro s hs
      injection hs with hs'
      subst hs'
      unfold scoreInRange
      rw [decide_eq_true hr.1, decide_eq_true hr.2]
      rfl
    · exact h

/-- The `/time` branch never touches the minimum score. -/
theorem minScoreInv_handle_time (users : Users) (chat_id t now : String)
    (h : minScoreInv users = true) :
    minScoreInv (handle_time users chat_id t now).1 = true := by
  simp only [handle_time]
  split
  · exact minScoreInv_set_prefs _ _ _ _ _ _ _ (fun s hs => Option.noConfusion hs) h
  · exact h

/-- Every branch of the command dispatcher except `/preferences` keeps the
score invariant. -/
theorem minScoreInv_parse_command_t (users : Users) (chat_id t now : String) (sw : Bool)
    (hinv : minScoreInv users = true)
    (hp : pyStartswith t "/preferences" = false) :
    minScoreInv (parse_command_t users chat_id t now sw).1 = true := by
  simp only [parse_command_t]
  rw [hp, if_neg (by decide : ¬ (false = true))]
  by_cases h1 : pyStartswith t "/start" = true
  · rw [if_pos h1]
    by_cases hw : (!sw && ((register_user users chat_id now).1 || decide (t = "/start"))) = true
    · rw [if_pos hw]
      exact minScoreInv_register users chat_id now hinv
    · rw [if_neg hw]
      exact minScoreInv_register users chat_id now hinv
  · rw [if_neg h1]
    by_cases h2 : pyStartswith t "/help" = true
    · rw [if_pos h2]; exact hinv
    · rw [if_neg h2]
      by_cases h3 : pyStartswith t "/keywords" = true
      · rw [if_pos h3]; exact minScoreInv_handle_keywords users chat_id t now hinv
      · rw [if_neg h3]
        by_cases h4 : pyStartswith t "/location" = true
        · rw [if_pos h4]; exact minScoreInv_handle_location users chat_id t now hinv
        · rw [if_neg h4]
          by_cases h5 : pyStartswith t "/score" = true
          · rw [if_pos h5]; exact minScoreInv_handle_score users chat_id t now hinv
          · rw [if_neg h5]
            by_cases h6 : pyStartswith t "/time" = true
            · rw [if_pos h6]; exact minScoreInv_handle_time users chat_id t now hinv
            · rw [if_neg h6]
              by_cases h7 : pyStartswith t "/jobs" = true
              · rw [if_pos h7]; exact hinv
              · rw [if_neg h7]
                by_cases h8 : pyStartswith t "/analyze" = true
                · rw [if_pos h8]; exact hinv
                · rw [if_neg h8]
                  by_cases h9 : pyStartswith t "/pause" = true
                  · rw [if_pos h9]
                    by_cases hu1 : hasUser users chat_id = true
                    · rw [if_pos hu1]
                      exact minScoreInv_updateUser users chat_id
                        (fun u => { u with is_active := false }) (fun u hu => hu) hinv
                    · rw [if_neg hu1]; exact hinv
                  · rw [if_neg h9]
                    by_cases h10 : pyStartswith t "/resume" = true
                    · rw [if_pos h10]
                      by_cases hu2 : hasUser users chat_id = true
                      · rw [if_pos hu2]
                        exact minScoreInv_updateUser users chat_id
                          (fun u => { u with is_active := true }) (fun u hu => hu) hinv
                      · rw [if_neg hu2]; exact hinv
                    · rw [if_neg h10]
                      by_cases h11 : pyStartswith t "/extract" = true
                      · rw [if_pos h11]; exact hinv
                      · rw [if_neg h11]; exact hinv

/-! ## Claim theorems -/

/-- C1 (code bug evaluation): the spec says `get_match_score` returns a
clamped-score `MatchResult` with a 50 fallback and never raises.  In the
code the method body builds the prompt and ends — its oracle call and
score-parse block sit at the end of `send_resume_analysis` referencing the
undefined name `prompt` — so every call returns `None`; the caller
`send_jobs_to_user` then subscripts `None` and the run crashes on the very
first scored posting, with no summary message sent. -/
theorem C1_get_match_score_returns_none_and_run_crashes :
    (∀ (job_data : Job) (resume_text : String), get_match_score job_data resume_text = none) ∧
    (send_jobs_to_user get_match_score demoUser [demoJob1]).crashed = true ∧
    (send_jobs_to_user get_match_score demoUser [demoJob1]).messages = [] :=
  ⟨fun _ _ => rfl, by decide, by decide⟩

/-- C2 (amended): the `[0,100]` bound on every stored `min_match_score` is
preserved by every command the router handles — `/score` accepted or
rejected, `/time`, `/keywords`, `/location`, `/pause`, `/resume`,
`/start`, and unrecognized input — with the sole exception of the
`/preferences` branch, which performs no range check. -/
theorem C2_min_score_invariant_outside_preferences
    (users : Users) (chat_id text now : String) (skip_welcome : Bool)
    (hinv : minScoreInv users = true)
    (hp : pyStartswith (pyStrip text) "/preferences" = false) :
    minScoreInv (parse_command users chat_id text now skip_welcome).1 = true := by
  unfold parse_command
  exact minScoreInv_parse_command_t users chat_id (pyStrip text) now skip_welcome hinv hp

/-- C2 (witness): a concrete in-range `/score` update through the router
keeps the invariant. -/
theorem C2_min_score_invariant_witness :
    minScoreInv (parse_command demoUsers "1" "/score 80" "t1" false).1 = true :=
  C2_min_score_invariant_outside_preferences demoUsers "1" "/score 80" "t1" false
    (by decide) (by decide)

/-- C2 (counterexample): the claim says the stored minimum score is in
`[0,100]` after any preference update, including `/preferences`.  The
`/preferences` branch only runs `int(...)` on the score piece (no range
check, joy.py line 478), so `/preferences a | b | 150 | 09:00` stores 150
and breaks the invariant that held before the command. -/
theorem C2_preferences_stores_out_of_range_score :
    (lookupUser (parse_command demoUsers "1" "/preferences a | b | 150 | 09:00" "t1" false).1
        "1").map UserProfile.min_match_score = some 150 ∧
    minScoreInv (parse_command demoUsers "1" "/preferences a | b | 150 | 09:00" "t1" false).1
      = false ∧
    minScoreInv demoUsers = true :=
  ⟨by decide, by decide, by decide⟩

/-- C3 (code bug evaluation): the posting identity is
`f"li_(hash(link))"` / `f"indeed_(hash(href))"` built from CPython's
salted string hash, so the identity is a function of the per-process hash
seed as well as of (source, link): two processes derive different
identities for the very same link, and the persisted delivered-id set
cannot deduplicate across restarts as the claim requires. -/
theorem C3_posting_identity_depends_on_process_seed :
    linkedinJobId 0 "https://lnk/1" ≠ linkedinJobId 1 "https://lnk/1" ∧
    indeedJobId 0 "/rc/clk?jk=1" ≠ indeedJobId 1 "/rc/clk?jk=1" :=
  ⟨by decide, by decide⟩

/-- C4 (amended): on transport failure (or an empty batch) the offset is
left alone, so the same batch is fetched and retried on the next poll; but
on a successful non-empty batch the handler advances `last_update_id` to
the batch maximum immediately after the fetch, BEFORE attempting to
process the batch's messages — the advance event heads the trace. -/
theorem C4_offset_advance_semantics (handler : TgUpdate → Except Unit Unit)
    (last : Option Int) (e : Unit) (u : TgUpdate) (us : List TgUpdate) :
    process_telegram_updates handler last (Except.error e) = (last, []) ∧
    process_telegram_updates handler last (Except.ok []) = (last, []) ∧
    process_telegram_updates handler last (Except.ok (u :: us)) =
      (some (maxUpdateId u us),
       PollEvent.advanceOffset (maxUpdateId u us) :: (processBatch handler (u :: us)).1) :=
  ⟨rfl, rfl, rfl⟩

/-- C4 (counterexample): the claim says the offset is advanced only after
every message in the batch has been attempted.  On the two-update batch
the trace puts the advance FIRST, before either attempt; and when the body
raises on the first message (so the second is never attempted) the offset
still ends up advanced to 2, so the unattempted remainder is never
retried. -/
theorem C4_offset_advanced_before_processing :
    (process_telegram_updates okHandler none (Except.ok [⟨1⟩, ⟨2⟩])).2 =
      [PollEvent.advanceOffset 2, PollEvent.handleUpdate 1, PollEvent.handleUpdate 2] ∧
    (process_telegram_updates failHandler none (Except.ok [⟨1⟩, ⟨2⟩])).1 = some 2 ∧
    (processBatch failHandler [⟨1⟩, ⟨2⟩]).2 = false ∧
    (processBatch failHandler [⟨1⟩, ⟨2⟩]).1 = [PollEvent.handleUpdate 1] :=
  ⟨by decide, by decide, by decide, by decide⟩

/-- C5 (amended): a `/time` argument whose stripped value does not have
exactly 5 characters containing a colon is rejected: the store is
untouched and the corrective format message is the only reply; in
particular `/time 8:30` (4 characters) is rejected.  (The colon's
position is NOT part of the check — see the counterexample.) -/
theorem C5_time_rejection (users : Users) (chat_id t now : String)
    (h : ¬ ((pyStrip (pyReplace t "/time" "")).length = 5 ∧
            containsChar (pyStrip (pyReplace t "/time" "")) ':' = true)) :
    handle_time users chat_id t now = (users, [timeFormatErrorMsg]) ∧
    handle_time users chat_id "/time 8:30" now = (users, [timeFormatErrorMsg]) := by
  constructor
  · simp only [handle_time]
    rw [if_neg (fun hc => h ⟨hc.2.1, hc.2.2⟩)]
  · simp only [handle_time]
    rw [if_neg (by decide)]

/-- C5 (witness): the scenario-6 input `/time 8:30` is rejected with the
format message and an unchanged store. -/
theorem C5_time_rejection_witness :
    handle_time demoUsers "1" "/time 8:30" "t1" = (demoUsers, [timeFormatErrorMsg]) :=
  (C5_time_rejection demoUsers "1" "/time 8:30" "t1" (by decide)).1

/-- C5 (counterexample): the claim says any argument that is not literally
`HH:MM` — 5 characters with the colon at index 2 — is rejected with the
prior time unchanged.  The code only checks `len == 5` and `":" in s`
(joy.py line 522), so `/time 1:234`, whose colon sits at index 1, is
accepted and overwrites the stored `09:00`. -/
theorem C5_time_accepts_colon_not_at_index_two :
    (lookupUser (parse_command demoUsers "1" "/time 1:234" "t1" false).1 "1").map
        UserProfile.notification_time = some "1:234" ∧
    "1:234".length = 5 ∧
    "1:234".toList.getD 2 ' ' ≠ ':' ∧
    (lookupUser demoUsers "1").map UserProfile.notification_time = some "09:00" :=
  ⟨by decide, by decide, by decide, by decide⟩

/-- C6: the delivered-id bookkeeping step (append then trim to
`jobs_sent[-100:]`) never leaves more than 100 entries and always keeps
exactly the most recent at-most-100 entries — the oldest are evicted
first; consequently the whole delivery loop preserves the 100-entry
bound. -/
theorem C6_delivered_set_bounded (sent : List String) (id : String)
    (scorer : Job → String → Option MatchResult) (resume : String) (minScore : Int)
    (l : List Job) (found : Nat) (scored notified : List String)
    (hsent : sent.length ≤ 100) :
    (recordDelivered sent id).length ≤ 100 ∧
    recordDelivered sent id = (sent ++ [id]).drop ((sent ++ [id]).length - 100) ∧
    (jobLoop scorer resume minScore l sent found scored notified).jobs_sent.length ≤ 100 :=
  ⟨recordDelivered_length_le sent id, recordDelivered_eq_drop sent id,
   jobLoop_sent_le scorer resume minScore l sent found scored notified hsent⟩

/-- C6 (witness): a concrete loop run stays within the bound. -/
theorem C6_delivered_set_bounded_witness :
    (jobLoop get_match_score "resume text" 70 [demoJob1] [] 0 [] []).jobs_sent.length ≤ 100 :=
  (C6_delivered_set_bounded [] "x" get_match_score "resume text" 70 [demoJob1] 0 [] []
    (by decide)).2.2

/-- C7 (code bug evaluation): the claim says every posting surviving the
dedup filter has its identity recorded before it is scored and regardless
of its score.  Because `get_match_score` returns `None`, the run crashes
while scoring the FIRST surviving posting: the second surviving posting
(which passed the filter, last conjunct) is never scored and its identity
is never recorded. -/
theorem C7_second_posting_never_recorded :
    (send_jobs_to_user get_match_score demoUser [demoJob1, demoJob2]).crashed = true ∧
    (send_jobs_to_user get_match_score demoUser [demoJob1, demoJob2]).jobs_sent = [demoJob1.id] ∧
    demoJob2.id ∉ (send_jobs_to_user get_match_score demoUser [demoJob1, demoJob2]).jobs_sent ∧
    demoJob2.id ∈
      (List.filter (fun j => !(demoUser.jobs_sent.contains j.id)) [demoJob1, demoJob2]).map
        Job.id :=
  ⟨by decide, by decide, by decide, by decide⟩

/-- C8: postings whose identity is already in the user's delivered set are
removed by the dedup filter before the scoring loop — in any run, no
already-delivered identity is ever scored again or given a new match
notification (second and third conjuncts, for an arbitrary scorer and
fetch result) — and when every fetched posting was already delivered, the
run sends exactly the single no-new-jobs message, scores nothing, notifies
nothing, and leaves the delivered set unchanged (first conjunct). -/
theorem C8_dedup_filter (scorer : Job → String → Option MatchResult)
    (user : UserProfile) (jobs : List Job)
    (hact : user.is_active = true) (hres : user.resume ≠ "") (hne : jobs ≠ [])
    (hall : ∀ j ∈ jobs, user.jobs_sent.contains j.id = true) :
    send_jobs_to_user scorer user jobs =
      { jobs_sent := user.jobs_sent, scored := [], notified := [],
        messages := [noNewJobsMsg], crashed := false } ∧
    (∀ (scorer2 : Job → String → Option MatchResult) (jobs2 : List Job) (x : String),
       x ∈ (send_jobs_to_user scorer2 user jobs2).scored →
       user.jobs_sent.contains x = false) ∧
    (∀ (scorer2 : Job → String → Option MatchResult) (jobs2 : List Job) (x : String),
       x ∈ (send_jobs_to_user scorer2 user jobs2).notified →
       user.jobs_sent.contains x = false) := by
  have hfilter : ∀ (jobs2 : List Job) (x : String),
      x ∈ (jobs2.filter (fun j => !(user.jobs_sent.contains j.id))).map Job.id →
      user.jobs_sent.contains x = false := by
    intro jobs2 x hx
    rw [List.mem_map] at hx
    obtain ⟨j, hjf, hjx⟩ := hx
    subst hjx
    rw [List.mem_filter] at hjf
    simpa using hjf.2
  refine ⟨?_, ?_, ?_⟩
  · have c1 : ¬ ((!user.is_active) = true) := by rw [hact]; decide
    have hfil : jobs.filter (fun j => !(user.jobs_sent.contains j.id)) = [] := by
      rw [List.filter_eq_nil_iff]
      intro j hj
      rw [hall j hj]
      decide
    simp only [send_jobs_to_user]
    rw [if_neg c1, if_neg hres, if_neg hne, hfil, if_pos rfl]
  · intro scorer2 jobs2 x hx
    simp only [send_jobs_to_user] at hx
    split_ifs at hx
    all_goals first
      | exact absurd hx (List.not_mem_nil x)
      | exact (jobLoop_scored_mem scorer2 user.resume user.min_match_score
          (jobs2.filter (fun j => !(user.jobs_sent.contains j.id))) user.jobs_sent 0 [] [] x
          hx).elim (fun h => absurd h (List.not_mem_nil x)) (fun h => hfilter jobs2 x h)
  · intro scorer2 jobs2 x hx
    simp only [send_jobs_to_user] at hx
    split_ifs at hx
    all_goals first
      | exact absurd hx (List.not_mem_nil x)
      | exact (jobLoop_notified_mem scorer2 user.resume user.min_match_score
          (jobs2.filter (fun j => !(user.jobs_sent.contains j.id))) user.jobs_sent 0 [] [] x
          hx).elim (fun h => absurd h (List.not_mem_nil x)) (fun h => hfilter jobs2 x h)

/-- C8 (witness): the scenario-4 rerun — both fetched postings already in
the delivered set — yields only the no-new-jobs message. -/
theorem C8_dedup_filter_witness :
    send_jobs_to_user get_match_score demoUserSent [demoJob1, demoJob2] =
      { jobs_sent := ["li_1", "li_2"], scored := [], notified := [],
        messages := [noNewJobsMsg], crashed := false } :=
  (C8_dedup_filter get_match_score demoUserSent [demoJob1, demoJob2]
    (by decide) (by decide) (by decide) (by decide)).1

/-- C9: `scrape_jobs` is the concatenation of the LinkedIn part followed by
the Indeed part (stable source order); each part is capped at 10 postings;
a failed source contributes the empty list while the other source's
results are still returned; and being a total function of its inputs, the
aggregate call never raises — per-source and per-record failures are
consumed by the `Except` inputs. -/
theorem C9_scrape_jobs_isolated_sources (seed : Nat)
    (linkedin_resp indeed_resp : SourceResp) (e1 e2 : Unit) :
    scrape_jobs seed linkedin_resp indeed_resp =
      linkedinPostings seed linkedin_resp ++ indeedPostings seed indeed_resp ∧
    (linkedinPostings seed linkedin_resp).length ≤ 10 ∧
    (indeedPostings seed indeed_resp).length ≤ 10 ∧
    linkedinPostings seed (Except.error e1) = [] ∧
    indeedPostings seed (Except.error e2) = [] ∧
    scrape_jobs seed (Except.error e1) indeed_resp = indeedPostings seed indeed_resp ∧
    scrape_jobs seed linkedin_resp (Except.error e2) = linkedinPostings seed linkedin_resp := by
  refine ⟨rfl, linkedinPostings_length_le seed linkedin_resp,
    indeedPostings_length_le seed indeed_resp, rfl, rfl, ?_, ?_⟩
  · show [] ++ indeedPostings seed indeed_resp = indeedPostings seed indeed_resp
    exact List.nil_append _
  · show linkedinPostings seed linkedin_resp ++ [] = linkedinPostings seed linkedin_resp
    exact List.append_nil _

/-- C10: the mutating store operations are total no-ops on the wrong id —
`set_resume` and `set_search_preferences` on an unknown id return `False`
with the store untouched, and `register_user` on an already-registered id
returns `False` with the store (hence that user's profile) untouched. -/
theorem C10_store_mutations_unknown_id_noop
    (users1 : Users) (id1 resume_text now1 : String)
    (ks : Option (List String)) (loc : Option String) (ms : Option Int) (nt : Option String)
    (users2 : Users) (id2 now2 : String)
    (h1 : hasUser users1 id1 = false) (h2 : hasUser users2 id2 = true) :
    set_resume users1 id1 resume_text now1 = (false, users1) ∧
    set_search_preferences users1 id1 ks loc ms nt now1 = (false, users1) ∧
    register_user users2 id2 now2 = (false, users2) := by
  refine ⟨?_, ?_, ?_⟩
  · unfold set_resume
    rw [h1, if_neg (by decide : ¬ (false = true))]
  · unfold set_search_preferences
    rw [h1, if_neg (by decide : ¬ (false = true))]
  · unfold register_user
    rw [h2, if_pos rfl]

/-- C10 (witness): concrete no-op mutations. -/
theorem C10_store_mutations_witness :
    set_resume [] "2" "r" "t9" = (false, []) ∧
    register_user demoUsers "1" "t9" = (false, demoUsers) :=
  ⟨(C10_store_mutations_unknown_id_noop [] "2" "r" "t9" none none none none
      demoUsers "1" "t9" (by decide) (by decide)).1,
   (C10_store_mutations_unknown_id_noop [] "2" "r" "t9" none none none none
      demoUsers "1" "t9" (by decide) (by decide)).2.2⟩
